import Mathlib

/-!
# swaylock `render.c`: frame scheduling and indicator presentation

A shallow embedding of `src/render.c`:

* `set_color_for_state`  – the colour resolution helper,
* `render`               – the frame scheduler,
* `render_frame`         – text derivation, final buffer rounding, drawing,
* `surface_frame_handle_done`.

Stateful code is written in state-passing style.  Requests sent to the
compositor, log lines and drawing steps are recorded in an event trace.
Text measurement (cairo, floating point) is an input of the model.
-/

namespace Swaylock

/-! ## Data model -/

/-- Modelled from the spec: `enum auth_state` is declared in `swaylock.h`,
which is not part of the sources; the spec lists `{Idle, Validating, Invalid}`
and `render.c` uses exactly these three enumerators. -/
inductive auth_state
  | AUTH_STATE_IDLE
  | AUTH_STATE_VALIDATING
  | AUTH_STATE_INVALID
  deriving DecidableEq

/-- Modelled from the spec: `enum input_state` is declared in `swaylock.h`,
which is not part of the sources; the spec lists
`{Idle, Letter, Backspace, Clear}` and `render.c` uses exactly these four. -/
inductive input_state
  | INPUT_STATE_IDLE
  | INPUT_STATE_CLEAR
  | INPUT_STATE_LETTER
  | INPUT_STATE_BACKSPACE
  deriving DecidableEq

/-- One colour per presentation state (`struct swaylock_colorset`); colours are
packed 32-bit values. -/
structure swaylock_colorset where
  input : Nat
  cleared : Nat
  caps_lock : Nat
  verifying : Nat
  wrong : Nat
  deriving DecidableEq

/-- The colour configuration (`struct swaylock_colors`), with the fields that
`render.c` reads. -/
structure swaylock_colors where
  background : Nat
  bs_highlight : Nat
  key_highlight : Nat
  caps_lock_bs_highlight : Nat
  caps_lock_key_highlight : Nat
  separator : Nat
  layout_background : Nat
  layout_border : Nat
  layout_text : Nat
  inside : swaylock_colorset
  line : swaylock_colorset
  ring : swaylock_colorset
  text : swaylock_colorset
  deriving DecidableEq

/-- The configuration flags (`struct swaylock_args`) read by `render.c`.
`mode_solid_color` stands for `mode == BACKGROUND_MODE_SOLID_COLOR`. -/
structure swaylock_args where
  colors : swaylock_colors
  mode_solid_color : Bool
  show_indicator : Bool
  show_caps_lock_text : Bool
  show_caps_lock_indicator : Bool
  show_keyboard_layout : Bool
  hide_keyboard_layout : Bool
  show_failed_attempts : Bool
  indicator_idle_visible : Bool
  pimode : Bool
  deriving DecidableEq

/-- A compiled keymap, as far as `render.c` queries it: one entry per layout,
`none` for a layout without a name.  `xkb_keymap_num_layouts` is the length. -/
structure xkb_keymap where
  layout_names : List (Option String)
  deriving DecidableEq

/-- Keyboard state (`struct swaylock_xkb`).  `keymap = none` is the NULL keymap;
`layout_active idx` is the result of
`xkb_state_layout_index_is_active(state, idx, XKB_STATE_LAYOUT_EFFECTIVE)`. -/
structure swaylock_xkb where
  caps_lock : Bool
  keymap : Option xkb_keymap
  layout_active : Nat → Int

/-- The process-wide indicator state (`struct swaylock_state`), with the fields
that `render.c` reads.  `password_len` is `state->password.len`. -/
structure swaylock_state where
  args : swaylock_args
  password_len : Nat
  xkb : swaylock_xkb
  auth_state : Swaylock.auth_state
  input_state : Swaylock.input_state
  failed_attempts : Int
  flash : Bool

/-- The value of a `char *text`: a NUL-terminated string (a literal or the
`attempts` buffer), or the bytes of the local `password` array up to its
terminator. -/
inductive Text
  | str (s : String)
  | bytes (b : List Nat)
  deriving DecidableEq

/-! ## Constants of `render_frame` -/

def PASSWORD_LEN : Nat := 20
def INV_CHAR_LEN : Nat := 3
def CURSOR_LEN : Nat := 1
def ELLIP_LEN : Nat := 3

/-- The bullet glyph `char inv_char[INV_CHAR_LEN] = { 0xE2, 0x80, 0xA2 }`. -/
def inv_char : List Nat := [0xE2, 0x80, 0xA2]
/-- The cursor glyph `char cursor[CURSOR_LEN] = { 0x5F }`, an underscore. -/
def cursor : List Nat := [0x5F]
/-- The ellipsis glyph `char ellipsis[ELLIP_LEN] = {0xE2, 0x80, 0xA6 }`. -/
def ellipsis : List Nat := [0xE2, 0x80, 0xA6]

/-- The size of `char password[INV_CHAR_LEN * PASSWORD_LEN + 1]`. -/
def PASSWORD_SIZE : Nat := INV_CHAR_LEN * PASSWORD_LEN + 1

/-- The size of `char attempts[4]`. -/
def ATTEMPTS_SIZE : Nat := 4

/-! ## Text derivation (first part of `render_frame`) -/

/-- The `draw_indicator` flag of `render_frame`. -/
def draw_indicator (state : swaylock_state) : Bool :=
  state.args.show_indicator &&
    (state.auth_state != auth_state.AUTH_STATE_IDLE ||
      state.input_state != input_state.INPUT_STATE_IDLE ||
      state.args.indicator_idle_visible)

/-- The inner loop `for (j = 0; j < n; j++) *cptr++ = src[j];`: the bytes stored
so far are `buf`, and `cptr` points at index `buf.length`. -/
def copy_bytes (n : Nat) (src : List Nat) (buf : List Nat) : List Nat :=
  (List.range n).foldl (fun b j => b ++ [src.getD j 0]) buf

/-- The display length `len` of message-box mode:
`len = caps_lock ? PASSWORD_LEN - 2 : PASSWORD_LEN;`
`if (password.len > len) len -= 1; else len = password.len;`. -/
def display_len (caps_lock : Bool) (password_len : Nat) : Nat :=
  let len := if caps_lock then PASSWORD_LEN - 2 else PASSWORD_LEN
  if password_len > len then len - 1 else password_len

/-- The placeholder loop `for (i = 0; i < len; i++) ...` of message-box mode. -/
def fill_placeholders (len password_len : Nat) : List Nat :=
  (List.range len).foldl
    (fun b i =>
      if i == 0 && len != password_len then copy_bytes ELLIP_LEN ellipsis b
      else copy_bytes INV_CHAR_LEN inv_char b)
    []

/-- Every byte stored through `cptr` in the `default:` case of message-box
mode, in order, the terminating zero included: the `k`-th element is stored at
`password[k]`. -/
def password_stores (caps_lock : Bool) (password_len : Nat) (flash : Bool) : List Nat :=
  let len := display_len caps_lock password_len
  let buf := fill_placeholders len password_len
  let buf := if flash then copy_bytes CURSOR_LEN cursor buf else buf
  buf ++ [0]

/-- The contents of a `char` array read as a C string: the bytes before the
first zero byte. -/
def c_str (bytes : List Nat) : List Nat :=
  bytes.takeWhile (fun b => b != 0)

/-- The text of message-box mode in the `default:` case: `text = password`. -/
def password_text (caps_lock : Bool) (password_len : Nat) (flash : Bool) : List Nat :=
  c_str (password_stores caps_lock password_len flash)

/-- The call `snprintf(buf, size, "%d", n)`: the decimal representation of `n`,
cut to `size - 1` characters to leave room for the terminator. -/
def snprintf_d (size : Nat) (n : Int) : String :=
  String.mk ((toString n).data.take (size - 1))

/-- The loop
`while (curr < num_layout && is_active(curr) != 1) ++curr;`
run for at most `fuel` iterations. -/
def advance_layout (active : Nat → Int) (num_layout : Nat) : Nat → Nat → Nat
  | 0, curr => curr
  | fuel + 1, curr =>
    if curr < num_layout ∧ active curr ≠ 1 then
      advance_layout active num_layout fuel (curr + 1)
    else curr

/-- The index `curr_layout` after the loop; `num_layout` iterations always
suffice (see `first_active_layout_exit`). -/
def first_active_layout (active : Nat → Int) (num_layout : Nat) : Nat :=
  advance_layout active num_layout num_layout 0

/-- The call `xkb_keymap_layout_get_name(keymap, idx)`: NULL for an index out of
range or a layout without a name. -/
def xkb_keymap_layout_get_name (keymap : xkb_keymap) (idx : Nat) : Option String :=
  (keymap.layout_names.get? idx).join

/-- The `if (state->xkb.keymap) { ... }` block computing `layout_text`. -/
def compute_layout_text (state : swaylock_state) : Option String :=
  match state.xkb.keymap with
  | none => none
  | some keymap =>
    let num_layout := keymap.layout_names.length
    if !state.args.hide_keyboard_layout &&
        (state.args.show_keyboard_layout || decide (num_layout > 1)) then
      xkb_keymap_layout_get_name keymap
        (first_active_layout state.xkb.layout_active num_layout)
    else none

/-- The text of the failed-attempts branch:
`if (failed_attempts > 999) text = "999+"; else { snprintf(...); text = attempts; }`. -/
def attempts_text (failed_attempts : Int) : String :=
  if failed_attempts > 999 then "999+"
  else snprintf_d ATTEMPTS_SIZE failed_attempts

/-- The first part of `render_frame`: the pair `(text, layout_text)`. -/
def compute_text (state : swaylock_state) : Option Text × Option String :=
  if state.args.pimode then
    match state.auth_state with
    | auth_state.AUTH_STATE_VALIDATING => (some (Text.str "       Verifying"), none)
    | auth_state.AUTH_STATE_INVALID => (some (Text.str "       Incorrect"), none)
    | _ =>
      (some (Text.bytes
        (password_text state.xkb.caps_lock state.password_len state.flash)), none)
  else if draw_indicator state then
    if state.input_state = input_state.INPUT_STATE_CLEAR then
      (some (Text.str "Cleared"), none)
    else if state.auth_state = auth_state.AUTH_STATE_VALIDATING then
      (some (Text.str "Verifying"), none)
    else if state.auth_state = auth_state.AUTH_STATE_INVALID then
      (some (Text.str "Wrong"), none)
    else
      let text : Option Text :=
        if state.xkb.caps_lock && state.args.show_caps_lock_text then
          some (Text.str "Caps Lock")
        else if state.args.show_failed_attempts && decide (state.failed_attempts > 0) then
          some (Text.str (attempts_text state.failed_attempts))
        else none
      (text, compute_layout_text state)
  else (none, none)

/-! ## Colour resolution -/

/-- The `colorset` argument of `set_color_for_state`: a pointer to one of
`state->args.colors.{inside, line, ring, text}`. -/
inductive color_role
  | inside
  | line
  | ring
  | text
  deriving DecidableEq

/-- Dereferencing the `colorset` pointer. -/
def colorset_of (colors : swaylock_colors) : color_role → swaylock_colorset
  | color_role.inside => colors.inside
  | color_role.line => colors.line
  | color_role.ring => colors.ring
  | color_role.text => colors.text

/-- The assignment `state->args.colors.text.input = c`. -/
def set_text_input (state : swaylock_state) (c : Nat) : swaylock_state :=
  { state with args := { state.args with colors := { state.args.colors with
      text := { state.args.colors.text with input := c } } } }

/-- The helper `set_color_for_state(cairo, state, colorset)`: the colour handed to
`cairo_set_source_u32`, and the state after the call.  The third branch
overwrites `colors.text.input` for the duration of the read, which the `text`
colour set observes through the pointer. -/
def set_color_for_state (state : swaylock_state) (role : color_role) :
    Nat × swaylock_state :=
  if state.input_state = input_state.INPUT_STATE_CLEAR then
    ((colorset_of state.args.colors role).cleared, state)
  else if state.auth_state = auth_state.AUTH_STATE_VALIDATING then
    ((colorset_of state.args.colors role).verifying, state)
  else if state.auth_state = auth_state.AUTH_STATE_INVALID then
    ((colorset_of state.args.colors role).wrong, state)
  else if state.xkb.caps_lock && state.args.show_caps_lock_indicator then
    ((colorset_of state.args.colors role).caps_lock, state)
  else if state.xkb.caps_lock && !state.args.show_caps_lock_indicator &&
      state.args.show_caps_lock_text then
    let inputtextcolor := state.args.colors.text.input
    let state1 := set_text_input state state.args.colors.text.caps_lock
    let c := (colorset_of state1.args.colors role).input
    (c, set_text_input state1 inputtextcolor)
  else
    ((colorset_of state.args.colors role).input, state)

/-! ## Surfaces, collaborators and the event trace -/

/-- Per-output render state (`struct swaylock_surface`).  `state` is the shared
`swaylock_state` behind `surface->state`; `image` says whether
`surface->image` is set; `frame` says whether `surface->frame` is non-NULL,
i.e. a frame callback is pending. -/
structure swaylock_surface where
  state : swaylock_state
  image : Bool
  width : Int
  height : Int
  scale : Int
  last_buffer_width : Int
  last_buffer_height : Int
  dirty : Bool
  frame : Bool

/-- What the collaborators answer during one call of `render`:
whether `create_buffer` succeeds, the buffer size `render_frame` has
computed from the text measurements before the final rounding, and whether
`get_next_buffer` returns a buffer. -/
structure render_env where
  create_buffer_ok : Bool
  measured_width : Int
  measured_height : Int
  get_next_buffer_ok : Bool

/-- The two Wayland surfaces of a `swaylock_surface`: `surface->surface` and
the indicator subsurface `surface->child`. -/
inductive wl_target
  | surface
  | child
  deriving DecidableEq

/-- One drawing step of `render_frame`, with the colour it uses. -/
inductive draw_op
  | inner_disk (color : Nat)
  | ring (color : Nat)
  | message (color : Nat) (text : Text)
  | highlight (color : Nat)
  | highlight_borders (color : Nat)
  | circle_borders (color : Nat)
  | layout_badge (background border color : Nat) (layout_text : String)
  | box (background : Nat)
  | box_border (color : Nat)
  | caps_glyph (color : Nat)
  deriving DecidableEq

/-- An observable effect of `render`. -/
inductive Event
  | log_error (msg : String)
  | create_buffer (width height : Int)
  | paint_background (color : Nat) (with_image : Bool)
  | set_buffer_scale (t : wl_target) (scale : Int)
  | attach (t : wl_target)
  | damage_buffer (t : wl_target)
  | frame (t : wl_target)
  | commit (t : wl_target)
  | destroy_buffer
  | callback_destroy
  | get_next_buffer (width height : Int)
  | clear_buffer
  | draw (op : draw_op)
  | subsurface_set_position
  deriving DecidableEq

/-! ## `render_frame` -/

/-- The largest value of the C type `int` (32 bits). -/
def INT_MAX : Int := 2147483647

/-- The value an arithmetic result takes in the 32-bit type `int`:
two's-complement wrap-around into `-2^31 .. 2^31 - 1`. -/
def to_int32 (x : Int) : Int :=
  (x + 2147483648) % 4294967296 - 2147483648

/-- The final rounding of `render_frame`:
`dim += scale - (dim % scale);` on `int`, with C's truncating `%`. -/
def round_to_scale (dim scale : Int) : Int :=
  to_int32 (dim + to_int32 (scale - Int.tmod dim scale))

/-- The ring-mode drawing block `if (draw_indicator) { ... }` after the buffer
has been cleared: the drawing steps, and the state after the four calls of
`set_color_for_state`. -/
def draw_ring (state : swaylock_state) (text : Option Text)
    (layout_text : Option String) : List draw_op × swaylock_state :=
  let (inside, state1) := set_color_for_state state color_role.inside
  let (ring, state2) := set_color_for_state state1 color_role.ring
  let (textcolor, state3) := set_color_for_state state2 color_role.text
  let message : List draw_op :=
    match text with
    | some t => [draw_op.message textcolor t]
    | none => []
  let highlight : List draw_op :=
    if state3.input_state = input_state.INPUT_STATE_LETTER ∨
        state3.input_state = input_state.INPUT_STATE_BACKSPACE then
      let color :=
        if state3.input_state = input_state.INPUT_STATE_LETTER then
          if state3.xkb.caps_lock && state3.args.show_caps_lock_indicator then
            state3.args.colors.caps_lock_key_highlight
          else state3.args.colors.key_highlight
        else
          if state3.xkb.caps_lock && state3.args.show_caps_lock_indicator then
            state3.args.colors.caps_lock_bs_highlight
          else state3.args.colors.bs_highlight
      [draw_op.highlight color, draw_op.highlight_borders state3.args.colors.separator]
    else []
  let (line, state4) := set_color_for_state state3 color_role.line
  let badge : List draw_op :=
    match layout_text with
    | some l =>
      [draw_op.layout_badge state4.args.colors.layout_background
        state4.args.colors.layout_border state4.args.colors.layout_text l]
    | none => []
  ([draw_op.inner_disk inside, draw_op.ring ring] ++ message ++ highlight ++
    [draw_op.circle_borders line] ++ badge, state4)

/-- The message-box drawing block `if (state->args.pimode) { ... }`. -/
def draw_box (state : swaylock_state) (text : Option Text) : List draw_op :=
  let message : List draw_op :=
    match text with
    | some t => [draw_op.message state.args.colors.separator t]
    | none => []
  let caps : List draw_op :=
    if state.xkb.caps_lock then [draw_op.caps_glyph state.args.colors.separator] else []
  [draw_op.box state.args.colors.background, draw_op.box_border 0x8F8F8FFF] ++
    message ++ caps

/-- The function `render_frame(surface)`: the returned flag, the shared state after the
call, and the events.  It returns `false` right after a failed
`get_next_buffer`, before anything is drawn or sent. -/
def render_frame (env : render_env) (surface : swaylock_surface) :
    Bool × swaylock_state × List Event :=
  let state := surface.state
  let (text, layout_text) := compute_text state
  let buffer_height := round_to_scale env.measured_height surface.scale
  let buffer_width := round_to_scale env.measured_width surface.scale
  if !env.get_next_buffer_ok then
    (false, state,
      [Event.get_next_buffer buffer_width buffer_height, Event.log_error "No buffer"])
  else
    let (ops, state1) :=
      if state.args.pimode then (draw_box state text, state)
      else if draw_indicator state then draw_ring state text layout_text
      else ([], state)
    (true, state1,
      [Event.get_next_buffer buffer_width buffer_height, Event.clear_buffer] ++
        ops.map Event.draw ++
        [Event.subsurface_set_position,
          Event.set_buffer_scale wl_target.child surface.scale,
          Event.attach wl_target.child,
          Event.damage_buffer wl_target.child,
          Event.commit wl_target.child])

/-! ## `render` and the frame callback -/

/-- The function `render(surface)`: the surface after the call and the events, in order.
`wl_surface_frame` hands back the new callback object, so `frame` is set
afterwards. -/
def render (env : render_env) (surface : swaylock_surface) :
    swaylock_surface × List Event :=
  let buffer_width := surface.width * surface.scale
  let buffer_height := surface.height * surface.scale
  if buffer_width = 0 ∨ buffer_height = 0 then
    (surface, [])
  else if !surface.dirty || surface.frame then
    (surface, [])
  else
    let size_changed : Bool :=
      decide (buffer_width ≠ surface.last_buffer_width ∨
        buffer_height ≠ surface.last_buffer_height)
    if size_changed && !env.create_buffer_ok then
      (surface,
        [Event.create_buffer buffer_width buffer_height,
          Event.log_error "Failed to create new buffer for frame background."])
    else
      let background : List Event :=
        if size_changed then
          [Event.create_buffer buffer_width buffer_height,
            Event.paint_background surface.state.args.colors.background
              (surface.image && !surface.state.args.mode_solid_color),
            Event.set_buffer_scale wl_target.surface surface.scale,
            Event.attach wl_target.surface,
            Event.damage_buffer wl_target.surface]
        else []
      let surface1 : swaylock_surface :=
        if size_changed then
          { surface with last_buffer_width := buffer_width,
                         last_buffer_height := buffer_height }
        else surface
      let need_destroy := size_changed
      let (_, state1, drawn) := render_frame env surface1
      let surface2 : swaylock_surface :=
        { surface1 with state := state1, dirty := false, frame := true }
      (surface2,
        background ++ drawn ++
          [Event.frame wl_target.surface, Event.commit wl_target.surface] ++
          (if need_destroy then [Event.destroy_buffer] else []))

/-- The listener `surface_frame_handle_done`: destroy the callback, clear `surface->frame`,
call `render`. -/
def surface_frame_handle_done (env : render_env) (surface : swaylock_surface) :
    swaylock_surface × List Event :=
  let (surface1, events) := render env { surface with frame := false }
  (surface1, Event.callback_destroy :: events)

/-! ## Specification-side definitions

These follow the wording of the specification, to be compared with the
definitions above. -/

/-- The failed-attempts text as the specification words it: the decimal string
of the counter, capped at the display value "999+" beyond 999. -/
def spec_attempts_text (failed_attempts : Int) : String :=
  if failed_attempts > 999 then "999+" else toString failed_attempts

/-- The ordered rule table of the specification for the primary text in ring
mode: a condition and the text it yields. -/
def primary_text_rules : List ((swaylock_state → Bool) × (swaylock_state → Option Text)) :=
  [ (fun s => !s.args.show_indicator ||
        (decide (s.auth_state = auth_state.AUTH_STATE_IDLE) &&
          decide (s.input_state = input_state.INPUT_STATE_IDLE) &&
          !s.args.indicator_idle_visible),
      fun _ => none),
    (fun s => decide (s.input_state = input_state.INPUT_STATE_CLEAR),
      fun _ => some (Text.str "Cleared")),
    (fun s => decide (s.auth_state = auth_state.AUTH_STATE_VALIDATING),
      fun _ => some (Text.str "Verifying")),
    (fun s => decide (s.auth_state = auth_state.AUTH_STATE_INVALID),
      fun _ => some (Text.str "Wrong")),
    (fun s => s.xkb.caps_lock && s.args.show_caps_lock_text,
      fun _ => some (Text.str "Caps Lock")),
    (fun s => s.args.show_failed_attempts && decide (s.failed_attempts > 0),
      fun s => some (Text.str (spec_attempts_text s.failed_attempts))) ]

/-- First match wins; no text when no rule applies. -/
def first_match (rules : List ((swaylock_state → Bool) × (swaylock_state → Option Text)))
    (s : swaylock_state) : Option Text :=
  match rules.find? (fun r => r.1 s) with
  | some r => r.2 s
  | none => none

/-- The display capacity as the specification words it: `PASSWORD_LEN = 20`,
reduced to 18 while caps lock is on. -/
def display_capacity (caps_lock : Bool) : Nat :=
  if caps_lock then 18 else 20

/-- A row of `count` placeholder glyphs: the first one is the ellipsis glyph
when `leading_ellipsis` is set, all the others are bullet glyphs. -/
def placeholder_row (count : Nat) (leading_ellipsis : Bool) : List Nat :=
  ((List.range count).map
    (fun i => if i = 0 ∧ leading_ellipsis = true then ellipsis else inv_char)).flatten

/-- The text as the specification words it: `min(n, C)` placeholder glyphs, led
by the ellipsis exactly when `n > C`, then one cursor glyph when `flash`. -/
def claimed_password_text (caps_lock : Bool) (n : Nat) (flash : Bool) : List Nat :=
  placeholder_row (min n (display_capacity caps_lock))
      (decide (n > display_capacity caps_lock)) ++
    (if flash then cursor else [])

/-- The text the code builds when its stores fit the array: `n` glyphs up to the
capacity `C`, and `C - 1` glyphs led by the ellipsis beyond it. -/
def built_password_text (caps_lock : Bool) (n : Nat) (flash : Bool) : List Nat :=
  placeholder_row
      (if n > display_capacity caps_lock then display_capacity caps_lock - 1 else n)
      (decide (n > display_capacity caps_lock)) ++
    (if flash then cursor else [])

/-! ## Conditions of `render` -/

/-- The buffer size of `render`: `surface->width * surface->scale` and
`surface->height * surface->scale` are both non-zero. -/
def configured (surface : swaylock_surface) : Prop :=
  surface.width * surface.scale ≠ 0 ∧ surface.height * surface.scale ≠ 0

instance (surface : swaylock_surface) : Decidable (configured surface) :=
  inferInstanceAs (Decidable
    (surface.width * surface.scale ≠ 0 ∧ surface.height * surface.scale ≠ 0))

/-- The buffer size of `render` differs from the last committed one. -/
def resized (surface : swaylock_surface) : Prop :=
  surface.width * surface.scale ≠ surface.last_buffer_width ∨
    surface.height * surface.scale ≠ surface.last_buffer_height

instance (surface : swaylock_surface) : Decidable (resized surface) :=
  inferInstanceAs (Decidable
    (surface.width * surface.scale ≠ surface.last_buffer_width ∨
      surface.height * surface.scale ≠ surface.last_buffer_height))

/-! ## Sample inputs -/

def sample_colorset (base : Nat) : swaylock_colorset :=
  { input := base, cleared := base + 1, caps_lock := base + 2, verifying := base + 3,
    wrong := base + 4 }

def sample_colors : swaylock_colors :=
  { background := 0xFFFFFFFF, bs_highlight := 1, key_highlight := 2,
    caps_lock_bs_highlight := 3, caps_lock_key_highlight := 4, separator := 5,
    layout_background := 6, layout_border := 7, layout_text := 8,
    inside := sample_colorset 10, line := sample_colorset 20,
    ring := sample_colorset 30, text := sample_colorset 40 }

/-- Ring mode, indicator shown, every optional text enabled. -/
def sample_args : swaylock_args :=
  { colors := sample_colors, mode_solid_color := true, show_indicator := true,
    show_caps_lock_text := true, show_caps_lock_indicator := false,
    show_keyboard_layout := true, hide_keyboard_layout := false,
    show_failed_attempts := true, indicator_idle_visible := false, pimode := false }

/-- One layout, named "us", which is the active one. -/
def sample_xkb : swaylock_xkb :=
  { caps_lock := false, keymap := some { layout_names := [some "us"] },
    layout_active := fun idx => if idx = 0 then 1 else 0 }

/-- A key was just typed, nothing else is going on. -/
def sample_state : swaylock_state :=
  { args := sample_args, password_len := 1, xkb := sample_xkb,
    auth_state := auth_state.AUTH_STATE_IDLE,
    input_state := input_state.INPUT_STATE_LETTER,
    failed_attempts := 0, flash := false }

/-- A configured 800x600 surface at scale 1, dirty, with no frame pending, whose
background has already been painted at this size. -/
def sample_surface : swaylock_surface :=
  { state := sample_state, image := false, width := 800, height := 600, scale := 1,
    last_buffer_width := 800, last_buffer_height := 600, dirty := true, frame := false }

/-- Every collaborator succeeds. -/
def ok_env : render_env :=
  { create_buffer_ok := true, measured_width := 150, measured_height := 150,
    get_next_buffer_ok := true }

/-- The buffer pool has no indicator buffer to give. -/
def no_indicator_env : render_env := { ok_env with get_next_buffer_ok := false }

/-- Message-box mode, idle, 21 characters typed, caps lock off, cursor hidden. -/
def long_password_state : swaylock_state :=
  { sample_state with
    args := { sample_args with pimode := true }, password_len := 21,
    input_state := input_state.INPUT_STATE_IDLE }

/-- Message-box mode, idle, 3 characters typed, cursor shown. -/
def short_password_state : swaylock_state :=
  { sample_state with
    args := { sample_args with pimode := true }, password_len := 3, flash := true,
    input_state := input_state.INPUT_STATE_IDLE }

/-- The last password was rejected and nothing has been typed since. -/
def wrong_state : swaylock_state :=
  { sample_state with
    auth_state := auth_state.AUTH_STATE_INVALID,
    input_state := input_state.INPUT_STATE_IDLE }

/-- Five failed attempts so far, a key was just typed. -/
def five_attempts_state : swaylock_state :=
  { sample_state with failed_attempts := 5 }

/-- The password buffer was just cleared; layout display is requested and the
keymap has the active layout "us". -/
def cleared_state : swaylock_state :=
  { sample_state with input_state := input_state.INPUT_STATE_CLEAR }

/-! ## Auxiliary lemmas -/

theorem toString_int_of_nat (m : Nat) : toString (m : Int) = Nat.repr m := rfl

/-- For a counter between 1 and 999 the `attempts` buffer holds the whole
decimal representation. -/
theorem snprintf_d_small (n : Int) (h0 : 0 < n) (h1 : n ≤ 999) :
    snprintf_d ATTEMPTS_SIZE n = toString n ∧ (toString n).length + 1 ≤ ATTEMPTS_SIZE := by
  obtain ⟨m, rfl⟩ := Int.eq_ofNat_of_zero_le (le_of_lt h0)
  have hm : m < 10 ^ 3 := by omega
  have hlen : (Nat.repr m).length ≤ 3 := Nat.repr_length m 3 (by decide) hm
  rw [toString_int_of_nat]
  refine ⟨?_, by simpa [ATTEMPTS_SIZE] using hlen⟩
  unfold snprintf_d
  rw [toString_int_of_nat]
  have hdata : (Nat.repr m).data.length ≤ 3 := hlen
  simp [ATTEMPTS_SIZE, List.take_of_length_le hdata]

theorem attempts_text_eq_spec (n : Int) (h0 : 0 < n) :
    attempts_text n = spec_attempts_text n := by
  unfold attempts_text spec_attempts_text
  by_cases h : n > 999
  · simp [h]
  · simp only [h, if_false]
    exact (snprintf_d_small n h0 (by omega)).1

theorem first_match_nil (s : swaylock_state) : first_match [] s = none := rfl

theorem first_match_cons (c : swaylock_state → Bool) (t : swaylock_state → Option Text)
    (rs : List ((swaylock_state → Bool) × (swaylock_state → Option Text)))
    (s : swaylock_state) :
    first_match ((c, t) :: rs) s = if c s = true then t s else first_match rs s := by
  unfold first_match
  cases h : c s <;> simp [List.find?, h]

/-- The colour helper leaves the shared state as it found it. -/
theorem set_color_for_state_snd (state : swaylock_state) (role : color_role) :
    (set_color_for_state state role).2 = state := by
  unfold set_color_for_state
  split_ifs <;> rfl

/-- The colour read in the branch that swaps `colors.text.input`: the caps-lock
colour for the `text` role and the input colour for the other roles. -/
theorem swapped_input_color (state : swaylock_state) (role : color_role) :
    (colorset_of (set_text_input state state.args.colors.text.caps_lock).args.colors
        role).input =
      if role = color_role.text then (colorset_of state.args.colors role).caps_lock
      else (colorset_of state.args.colors role).input := by
  cases role <;> rfl

theorem draw_ring_snd (state : swaylock_state) (text : Option Text)
    (layout_text : Option String) : (draw_ring state text layout_text).2 = state := by
  simp [draw_ring, set_color_for_state_snd]

theorem render_frame_state (env : render_env) (surface : swaylock_surface) :
    (render_frame env surface).2.1 = surface.state := by
  unfold render_frame
  cases env.get_next_buffer_ok <;> simp
  split_ifs <;> simp [draw_ring_snd]

/-- The only commit `render_frame` sends goes to the indicator subsurface. -/
theorem render_frame_no_surface_commit (env : render_env) (surface : swaylock_surface) :
    Event.commit wl_target.surface ∉ (render_frame env surface).2.2 := by
  unfold render_frame
  cases env.get_next_buffer_ok <;> simp

theorem count_commit_run (bg drawn destroy : List Event)
    (hbg : Event.commit wl_target.surface ∉ bg)
    (hdrawn : Event.commit wl_target.surface ∉ drawn)
    (hdestroy : Event.commit wl_target.surface ∉ destroy) :
    (bg ++ drawn ++ [Event.frame wl_target.surface, Event.commit wl_target.surface] ++
      destroy).count (Event.commit wl_target.surface) = 1 := by
  simp [List.count_append, List.count_eq_zero.mpr hbg, List.count_eq_zero.mpr hdrawn,
    List.count_eq_zero.mpr hdestroy, List.count_cons]

/-- The three ways a call of `render` can end: it returns at one of the two
guards, it returns after a failed `create_buffer`, or it runs to the end. -/
theorem render_outcome (env : render_env) (surface : swaylock_surface) :
    (render env surface = (surface, []) ∧
      ¬ (configured surface ∧ surface.dirty = true ∧ surface.frame = false)) ∨
    ((render env surface).1 = surface ∧
      Event.commit wl_target.surface ∉ (render env surface).2 ∧
      Event.frame wl_target.surface ∉ (render env surface).2 ∧
      configured surface ∧ surface.dirty = true ∧ surface.frame = false ∧
      resized surface ∧ env.create_buffer_ok = false) ∨
    ((render env surface).1.dirty = false ∧ (render env surface).1.frame = true ∧
      (render env surface).2.count (Event.commit wl_target.surface) = 1 ∧
      configured surface ∧ surface.dirty = true ∧ surface.frame = false ∧
      (resized surface → env.create_buffer_ok = true)) := by
  unfold configured resized render
  dsimp only
  generalize surface.width * surface.scale = bw
  generalize surface.height * surface.scale = bh
  by_cases h1 : bw = 0 ∨ bh = 0
  · left
    rw [if_pos h1]
    exact ⟨rfl, fun h => by tauto⟩
  rw [if_neg h1]
  have hconf : bw ≠ 0 ∧ bh ≠ 0 := by tauto
  by_cases h2 : (!surface.dirty || surface.frame) = true
  · left
    rw [if_pos h2]
    refine ⟨rfl, ?_⟩
    rintro ⟨_, hd, hf⟩
    simp [hd, hf] at h2
  rw [if_neg h2]
  have hd : surface.dirty = true := by
    cases h : surface.dirty
    · simp [h] at h2
    · rfl
  have hf : surface.frame = false := by
    cases h : surface.frame
    · rfl
    · simp [h] at h2
  right
  by_cases h3 : (decide (bw ≠ surface.last_buffer_width ∨ bh ≠ surface.last_buffer_height) &&
      !env.create_buffer_ok) = true
  · left
    rw [if_pos h3]
    have h3' : (bw ≠ surface.last_buffer_width ∨ bh ≠ surface.last_buffer_height) ∧
        env.create_buffer_ok = false := by
      simpa using h3
    exact ⟨rfl, by simp, by simp, hconf, hd, hf, h3'.1, h3'.2⟩
  · right
    rw [if_neg h3]
    refine ⟨rfl, rfl, ?_, hconf, hd, hf, ?_⟩
    · refine count_commit_run _ _ _ ?_ (render_frame_no_surface_commit _ _) ?_
      · split_ifs <;> simp
      · split_ifs <;> simp
    · intro hres
      cases hcb : env.create_buffer_ok
      · exact absurd (by simp [hres, hcb]) h3
      · rfl

/-! ## C1: primary text in ring mode -/

/-- C1: in ring mode (message-box flag off) the primary text computed by
`render_frame` is the first match of the ordered rule list: nothing when the
indicator is not visible, "Cleared", "Verifying", "Wrong", "Caps Lock", the
failed-attempts text, otherwise nothing. -/
theorem primary_text_follows_rule_list (state : swaylock_state)
    (hring : state.args.pimode = false) :
    (compute_text state).1 = first_match primary_text_rules state := by
  simp only [primary_text_rules, first_match_cons, first_match_nil]
  unfold compute_text draw_indicator
  rw [hring]
  have hat : 0 < state.failed_attempts →
      attempts_text state.failed_attempts = spec_attempts_text state.failed_attempts :=
    attempts_text_eq_spec state.failed_attempts
  generalize state.failed_attempts = n at hat ⊢
  generalize attempts_text n = a at hat ⊢
  generalize spec_attempts_text n = b at hat ⊢
  by_cases hpos : 0 < n
  · have hab := hat hpos
    subst hab
    cases state.args.show_indicator <;> cases state.args.indicator_idle_visible <;>
      cases state.auth_state <;> cases state.input_state <;> simp
  · cases state.args.show_indicator <;> cases state.args.indicator_idle_visible <;>
      cases state.auth_state <;> cases state.input_state <;> simp [hpos]

theorem primary_text_follows_rule_list_witness :
    wrong_state.args.pimode = false ∧
    (compute_text wrong_state).1 = first_match primary_text_rules wrong_state ∧
    first_match primary_text_rules wrong_state = some (Text.str "Wrong") :=
  ⟨rfl, primary_text_follows_rule_list wrong_state rfl, by decide⟩

/-! ## C8: the failed-attempts text -/

/-- C8: when the failed-attempts rule is the one that applies, a counter of 0
yields no text, a counter from 1 to 999 yields its decimal representation
(which fits the 4-byte `attempts` buffer with its terminator), and a counter
above 999 yields "999+"; 5 gives "5" and 1000 gives "999+". -/
theorem failed_attempts_text_by_range (state : swaylock_state)
    (hring : state.args.pimode = false)
    (hvisible : draw_indicator state = true)
    (hclear : state.input_state ≠ input_state.INPUT_STATE_CLEAR)
    (hauth : state.auth_state = auth_state.AUTH_STATE_IDLE)
    (hcaps : (state.xkb.caps_lock && state.args.show_caps_lock_text) = false)
    (hshow : state.args.show_failed_attempts = true) :
    (state.failed_attempts = 0 → (compute_text state).1 = none) ∧
    (1 ≤ state.failed_attempts → state.failed_attempts ≤ 999 →
      (compute_text state).1 = some (Text.str (toString state.failed_attempts)) ∧
      (toString state.failed_attempts).length + 1 ≤ ATTEMPTS_SIZE) ∧
    (999 < state.failed_attempts → (compute_text state).1 = some (Text.str "999+")) ∧
    (state.failed_attempts = 5 → (compute_text state).1 = some (Text.str "5")) ∧
    (state.failed_attempts = 1000 → (compute_text state).1 = some (Text.str "999+")) := by
  have key : (compute_text state).1 =
      if 0 < state.failed_attempts then
        some (Text.str (attempts_text state.failed_attempts)) else none := by
    unfold compute_text
    simp [hring, hvisible, hclear, hauth, hcaps, hshow]
  rw [key]
  refine ⟨?_, ?_, ?_, ?_, ?_⟩
  · intro h0
    simp [h0]
  · intro h1 h2
    have hpos : 0 < state.failed_attempts := by omega
    have hsmall := snprintf_d_small state.failed_attempts hpos h2
    have hnot : ¬ state.failed_attempts > 999 := by omega
    refine ⟨?_, hsmall.2⟩
    simp only [hpos, if_true, attempts_text, hnot, if_false]
    rw [hsmall.1]
  · intro h
    have hpos : 0 < state.failed_attempts := by omega
    simp [hpos, attempts_text, h]
  · intro h
    rw [h]
    decide
  · intro h
    rw [h]
    decide

theorem failed_attempts_text_by_range_witness :
    five_attempts_state.args.pimode = false ∧
    draw_indicator five_attempts_state = true ∧
    five_attempts_state.failed_attempts = 5 ∧
    (compute_text five_attempts_state).1 = some (Text.str "5") :=
  ⟨rfl, by decide, rfl,
    (failed_attempts_text_by_range five_attempts_state rfl (by decide) (by decide) rfl
      rfl rfl).2.2.2.1 rfl⟩

/-! ## C4: the final rounding of the buffer size -/

theorem to_int32_of_range (x : Int) (hlo : -2147483648 ≤ x) (hhi : x ≤ 2147483647) :
    to_int32 x = x := by
  unfold to_int32
  omega

/-- C4, as stated, fails: for the dimension `d = INT_MAX` and the scale factor
`s = 1` the addition leaves the range of `int`, and the final dimension is
`INT_MIN`, which is not greater than `d`. -/
theorem round_to_scale_overflow_fails :
    (0 : Int) ≤ INT_MAX ∧ (1 : Int) ≤ 1 ∧
    round_to_scale INT_MAX 1 = -2147483648 ∧
    ¬ (INT_MAX < round_to_scale INT_MAX 1) := by
  decide

/-- C4, amended: for a scale factor `s ≥ 1` and a dimension `d ≥ 0` whose rounded
value `d + s - (d mod s)` is at most `INT_MAX`, the final dimension is
`d + s - (d mod s)`: a multiple of `s`, strictly greater than `d`, at most
`d + s`, with no multiple of `s` strictly between `d` and it. -/
theorem round_to_scale_next_multiple (d s : Int) (hd : 0 ≤ d) (hs : 1 ≤ s)
    (hfit : d + s - d % s ≤ INT_MAX) :
    round_to_scale d s = d + s - d % s ∧
    s ∣ round_to_scale d s ∧ d < round_to_scale d s ∧ round_to_scale d s ≤ d + s ∧
    (∀ m : Int, s ∣ m → d < m → round_to_scale d s ≤ m) := by
  have hs0 : 0 ≤ s := by omega
  have hspos : 0 < s := by omega
  have hmod : Int.tmod d s = d % s := Int.tmod_eq_emod hd hs0
  have h1 : 0 ≤ d % s := Int.emod_nonneg d (by omega)
  have h2 : d % s < s := Int.emod_lt_of_pos d hspos
  have hdiv : d % s + s * (d / s) = d := Int.emod_add_ediv d s
  have hquot : 0 ≤ s * (d / s) := Int.mul_nonneg hs0 (Int.ediv_nonneg hd hs0)
  have h3 : d % s ≤ d := by omega
  have hmax : INT_MAX = 2147483647 := rfl
  rw [hmax] at hfit
  have hval : round_to_scale d s = d + s - d % s := by
    unfold round_to_scale
    rw [hmod, to_int32_of_range (s - d % s) (by omega) (by omega),
      to_int32_of_range (d + (s - d % s)) (by omega) (by omega)]
    omega
  have hr : round_to_scale d s = s * (d / s + 1) := by
    rw [hval]
    linarith [mul_add s (d / s) 1, mul_one s]
  refine ⟨hval, ?_, ?_, ?_, ?_⟩
  · rw [hr]
    exact Dvd.intro _ rfl
  · rw [hval]
    omega
  · rw [hval]
    omega
  · rintro m ⟨k, rfl⟩ hlt
    rw [hr]
    have hk : d / s < k := by
      by_contra hcon
      have hle : k ≤ d / s := by omega
      have : s * k ≤ s * (d / s) := Int.mul_le_mul_of_nonneg_left hle hs0
      omega
    have hk1 : d / s + 1 ≤ k := by omega
    exact Int.mul_le_mul_of_nonneg_left hk1 hs0

theorem round_to_scale_next_multiple_witness :
    (0 : Int) ≤ 151 ∧ (1 : Int) ≤ 2 ∧ (151 : Int) + 2 - 151 % 2 ≤ INT_MAX ∧
    round_to_scale 151 2 = 152 ∧ (2 : Int) ∣ round_to_scale 151 2 :=
  ⟨by decide, by decide, by decide, by decide,
    (round_to_scale_next_multiple 151 2 (by decide) (by decide) (by decide)).2.1⟩

/-! ## C9: colour resolution and the "Wrong" scenario -/

/-- C9: for every colour role and state, `set_color_for_state` resolves to the
cleared colour when the input state is Clear, else the verifying colour when
validating, else the wrong colour when invalid, and to a caps-lock or input
colour only when none of these hold; for Invalid / Idle / no caps lock the
inside, ring and text colours resolve to their wrong colour, no highlight arc
is drawn (it is drawn only for Letter or Backspace), and the text of the ring,
shown when the indicator is enabled in ring mode, is "Wrong". -/
theorem color_priority_and_wrong_scenario (state : swaylock_state) (role : color_role) :
    (state.input_state = input_state.INPUT_STATE_CLEAR →
      (set_color_for_state state role).1 = (colorset_of state.args.colors role).cleared) ∧
    (state.input_state ≠ input_state.INPUT_STATE_CLEAR →
      state.auth_state = auth_state.AUTH_STATE_VALIDATING →
      (set_color_for_state state role).1 = (colorset_of state.args.colors role).verifying) ∧
    (state.input_state ≠ input_state.INPUT_STATE_CLEAR →
      state.auth_state = auth_state.AUTH_STATE_INVALID →
      (set_color_for_state state role).1 = (colorset_of state.args.colors role).wrong) ∧
    (state.input_state ≠ input_state.INPUT_STATE_CLEAR →
      state.auth_state = auth_state.AUTH_STATE_IDLE →
      (set_color_for_state state role).1 = (colorset_of state.args.colors role).caps_lock ∨
      (set_color_for_state state role).1 = (colorset_of state.args.colors role).input) ∧
    (state.auth_state = auth_state.AUTH_STATE_INVALID →
      state.input_state = input_state.INPUT_STATE_IDLE →
      state.xkb.caps_lock = false →
      (set_color_for_state state color_role.inside).1 = state.args.colors.inside.wrong ∧
      (set_color_for_state state color_role.ring).1 = state.args.colors.ring.wrong ∧
      (set_color_for_state state color_role.text).1 = state.args.colors.text.wrong ∧
      (∀ (text : Option Text) (layout_text : Option String) (c : Nat),
        draw_op.highlight c ∉ (draw_ring state text layout_text).1) ∧
      (state.args.pimode = false → state.args.show_indicator = true →
        (compute_text state).1 = some (Text.str "Wrong") ∧
        (draw_ring state (compute_text state).1 (compute_text state).2).1 =
          [draw_op.inner_disk state.args.colors.inside.wrong,
            draw_op.ring state.args.colors.ring.wrong,
            draw_op.message state.args.colors.text.wrong (Text.str "Wrong"),
            draw_op.circle_borders state.args.colors.line.wrong])) ∧
    (∀ (text : Option Text) (layout_text : Option String),
      (∃ c, draw_op.highlight c ∈ (draw_ring state text layout_text).1) ↔
        (state.input_state = input_state.INPUT_STATE_LETTER ∨
          state.input_state = input_state.INPUT_STATE_BACKSPACE)) := by
  have hhl : ∀ (text : Option Text) (layout_text : Option String),
      (∃ c, draw_op.highlight c ∈ (draw_ring state text layout_text).1) ↔
        (state.input_state = input_state.INPUT_STATE_LETTER ∨
          state.input_state = input_state.INPUT_STATE_BACKSPACE) := by
    intro text layout_text
    unfold draw_ring
    simp only [set_color_for_state_snd]
    cases text <;> cases layout_text <;> cases hi : state.input_state <;> simp
  refine ⟨?_, ?_, ?_, ?_, ?_, hhl⟩
  · intro h
    simp [set_color_for_state, h]
  · intro h1 h2
    simp [set_color_for_state, h1, h2]
  · intro h1 h2
    simp [set_color_for_state, h1, h2]
  · intro h1 h2
    have hv : state.auth_state ≠ auth_state.AUTH_STATE_VALIDATING := by rw [h2]; decide
    have hi : state.auth_state ≠ auth_state.AUTH_STATE_INVALID := by rw [h2]; decide
    unfold set_color_for_state
    rw [if_neg h1, if_neg hv, if_neg hi]
    by_cases hA : (state.xkb.caps_lock && state.args.show_caps_lock_indicator) = true
    · rw [if_pos hA]
      exact Or.inl rfl
    · rw [if_neg hA]
      by_cases hB : (state.xkb.caps_lock && !state.args.show_caps_lock_indicator &&
          state.args.show_caps_lock_text) = true
      · rw [if_pos hB]
        dsimp only
        rw [swapped_input_color]
        by_cases hr : role = color_role.text
        · rw [if_pos hr]
          exact Or.inl rfl
        · rw [if_neg hr]
          exact Or.inr rfl
      · rw [if_neg hB]
        exact Or.inr rfl
  · intro hauth hinput _
    refine ⟨?_, ?_, ?_, ?_, ?_⟩
    · simp [set_color_for_state, hauth, hinput, colorset_of]
    · simp [set_color_for_state, hauth, hinput, colorset_of]
    · simp [set_color_for_state, hauth, hinput, colorset_of]
    · intro text layout_text c hc
      have := (hhl text layout_text).mp ⟨c, hc⟩
      rw [hinput] at this
      rcases this with h | h <;> exact absurd h (by decide)
    · intro hring hshow
      have hvis : draw_indicator state = true := by
        simp [draw_indicator, hshow, hauth]
      have htext : compute_text state = (some (Text.str "Wrong"), none) := by
        unfold compute_text
        simp [hring, hvis, hauth, hinput]
      rw [htext]
      refine ⟨rfl, ?_⟩
      simp [draw_ring, set_color_for_state, set_color_for_state_snd, hauth, hinput,
        colorset_of]

theorem color_priority_and_wrong_scenario_witness :
    wrong_state.args.pimode = false ∧ draw_indicator wrong_state = true ∧
    (set_color_for_state wrong_state color_role.ring).1 = 34 ∧
    (compute_text wrong_state).1 = some (Text.str "Wrong") :=
  ⟨rfl, by decide,
    (color_priority_and_wrong_scenario wrong_state color_role.ring).2.2.1 (by decide) rfl,
    ((color_priority_and_wrong_scenario wrong_state color_role.ring).2.2.2.2.1 rfl
      rfl rfl).2.2.2.2 rfl rfl |>.1⟩

/-! ## C2: when `render` commits -/

/-- C3: from any surface state, two calls of `render` in succession, with no
frame callback and no state change in between, issue at most one commit on the
surface; after a call that commits, dirty is false and a frame callback is
pending, and the second call does nothing. -/
theorem render_twice_at_most_one_commit (env1 env2 : render_env)
    (surface : swaylock_surface) :
    ((render env1 surface).2 ++ (render env2 (render env1 surface).1).2).count
        (Event.commit wl_target.surface) ≤ 1 ∧
    (Event.commit wl_target.surface ∈ (render env1 surface).2 →
      (render env1 surface).1.dirty = false ∧ (render env1 surface).1.frame = true ∧
      render env2 (render env1 surface).1 = ((render env1 surface).1, [])) := by
  have hsecond : ∀ s : swaylock_surface,
      (render env2 s).2.count (Event.commit wl_target.surface) ≤ 1 := by
    intro s
    rcases render_outcome env2 s with ⟨hr, _⟩ | ⟨_, hnc, _⟩ | ⟨_, _, hcnt, _⟩
    · rw [hr]
      simp
    · rw [List.count_eq_zero.mpr hnc]
      omega
    · omega
  rw [List.count_append]
  rcases render_outcome env1 surface with ⟨hr, _⟩ | ⟨_, hnc, _⟩ | ⟨hd, hf, hcnt, _⟩
  · rw [hr]
    refine ⟨?_, fun h => by simp at h⟩
    have := hsecond surface
    simpa using this
  · refine ⟨?_, fun h => absurd h hnc⟩
    rw [List.count_eq_zero.mpr hnc]
    have := hsecond (render env1 surface).1
    omega
  · have hnoop : render env2 (render env1 surface).1 = ((render env1 surface).1, []) := by
      rcases render_outcome env2 (render env1 surface).1 with ⟨hr, _⟩ |
        ⟨_, _, _, _, hd2, _⟩ | ⟨_, _, _, _, hd2, _⟩
      · exact hr
      · rw [hd] at hd2
        exact absurd hd2 (by decide)
      · rw [hd] at hd2
        exact absurd hd2 (by decide)
    refine ⟨?_, fun _ => ⟨hd, hf, hnoop⟩⟩
    rw [hnoop, hcnt]
    simp

theorem render_twice_at_most_one_commit_witness :
    Event.commit wl_target.surface ∈ (render ok_env sample_surface).2 ∧
    render no_indicator_env (render ok_env sample_surface).1 =
      ((render ok_env sample_surface).1, []) :=
  ⟨by decide,
    ((render_twice_at_most_one_commit ok_env no_indicator_env sample_surface).2
      (by decide)).2.2⟩

/-! ## C5: allocation failures -/

/-- A failed `create_buffer` skips the frame: no commit, no frame callback, and
the surface, with dirty still set, is left as it was. -/
theorem render_skips_after_failed_create_buffer (env : render_env)
    (surface : swaylock_surface) (hconf : configured surface)
    (hd : surface.dirty = true) (hf : surface.frame = false)
    (hres : resized surface) (hcb : env.create_buffer_ok = false) :
    (render env surface).1 = surface ∧
    Event.commit wl_target.surface ∉ (render env surface).2 ∧
    Event.frame wl_target.surface ∉ (render env surface).2 := by
  rcases render_outcome env surface with ⟨_, hno⟩ | ⟨h1, h2, h3, _⟩ | ⟨_, _, _, _, _, _, hok⟩
  · exact absurd ⟨hconf, hd, hf⟩ hno
  · exact ⟨h1, h2, h3⟩
  · rw [hok hres] at hcb
    exact absurd hcb (by decide)

/-- A failed `get_next_buffer` does not skip the frame: once the background
buffer is not in the way, `render` arms the callback, commits and clears dirty
whatever `render_frame` returns. -/
theorem render_ignores_render_frame_result (env : render_env)
    (surface : swaylock_surface) (hconf : configured surface)
    (hd : surface.dirty = true) (hf : surface.frame = false)
    (hcb : resized surface → env.create_buffer_ok = true) :
    Event.commit wl_target.surface ∈ (render env surface).2 ∧
    (render env surface).1.dirty = false ∧ (render env surface).1.frame = true := by
  rcases render_outcome env surface with ⟨_, hno⟩ | ⟨_, _, _, _, _, _, hres, hfail⟩ |
    ⟨hd', hf', hcnt, _⟩
  · exact absurd ⟨hconf, hd, hf⟩ hno
  · rw [hcb hres] at hfail
    exact absurd hfail (by decide)
  · exact ⟨List.count_pos_iff.mp (by omega), hd', hf'⟩

/-- C5: on a configured, dirty surface with no frame pending, `render_frame`
reports a failed `get_next_buffer`, and `render` none the less arms a frame
callback, commits the surface and clears dirty. -/
theorem render_commits_after_failed_get_next_buffer :
    configured sample_surface ∧ sample_surface.dirty = true ∧
    sample_surface.frame = false ∧ no_indicator_env.get_next_buffer_ok = false ∧
    (render_frame no_indicator_env sample_surface).1 = false ∧
    (render no_indicator_env sample_surface).2 =
      [Event.get_next_buffer 151 151, Event.log_error "No buffer",
        Event.frame wl_target.surface, Event.commit wl_target.surface] ∧
    (render no_indicator_env sample_surface).1.dirty = false ∧
    (render no_indicator_env sample_surface).1.frame = true := by
  decide

/-! ## C6 and C10: the placeholder text of message-box mode -/

theorem foldl_append_flatten (g : Nat → List Nat) (l : List Nat) (init : List Nat) :
    l.foldl (fun b i => b ++ g i) init = init ++ (l.map g).flatten := by
  induction l generalizing init with
  | nil => simp
  | cons x xs ih => simp [ih, List.append_assoc]

theorem copy_bytes_ellipsis (b : List Nat) : copy_bytes ELLIP_LEN ellipsis b = b ++ ellipsis := by
  simp [copy_bytes, ELLIP_LEN, ellipsis, List.range_succ]

theorem copy_bytes_inv_char (b : List Nat) :
    copy_bytes INV_CHAR_LEN inv_char b = b ++ inv_char := by
  simp [copy_bytes, INV_CHAR_LEN, inv_char, List.range_succ]

theorem copy_bytes_cursor (b : List Nat) : copy_bytes CURSOR_LEN cursor b = b ++ cursor := by
  simp [copy_bytes, CURSOR_LEN, cursor, List.range_succ]

theorem fill_placeholders_eq (len password_len : Nat) :
    fill_placeholders len password_len =
      placeholder_row len (decide (len ≠ password_len)) := by
  unfold fill_placeholders placeholder_row
  rw [← List.nil_append (List.flatten _), ← foldl_append_flatten]
  congr 1
  funext b i
  by_cases h0 : i = 0 <;> by_cases hl : len = password_len <;>
    simp [h0, hl, copy_bytes_ellipsis, copy_bytes_inv_char]

theorem placeholder_row_length (count : Nat) (lead : Bool) :
    (placeholder_row count lead).length = 3 * count := by
  unfold placeholder_row
  induction count with
  | zero => simp
  | succ k ih =>
    rw [List.range_succ, List.map_append, List.flatten_append, List.length_append, ih]
    by_cases h : k = 0 ∧ lead = true
    · simp [h, ellipsis]
    · simp only [List.map_cons, List.map_nil, if_neg h, inv_char]
      simp
      omega

theorem placeholder_row_nonzero (count : Nat) (lead : Bool) :
    ∀ b ∈ placeholder_row count lead, b ≠ 0 := by
  intro b hb
  unfold placeholder_row at hb
  rw [List.mem_flatten] at hb
  obtain ⟨glyph, hg, hbg⟩ := hb
  rw [List.mem_map] at hg
  obtain ⟨i, _, rfl⟩ := hg
  split_ifs at hbg
  · simp [ellipsis] at hbg
    omega
  · simp [inv_char] at hbg
    omega

theorem c_str_terminated (l : List Nat) (h : ∀ b ∈ l, b ≠ 0) : c_str (l ++ [0]) = l := by
  unfold c_str
  induction l with
  | nil => simp
  | cons x xs ih =>
    have hx : x ≠ 0 := h x (List.mem_cons_self x xs)
    have hxs : ∀ b ∈ xs, b ≠ 0 := fun b hb => h b (List.mem_cons_of_mem x hb)
    simp [List.takeWhile_cons, hx, ih hxs]

theorem display_len_eq (caps_lock : Bool) (n : Nat) :
    display_len caps_lock n =
      if n > display_capacity caps_lock then display_capacity caps_lock - 1 else n := by
  cases caps_lock <;> simp [display_len, display_capacity, PASSWORD_LEN]

theorem password_stores_eq (caps_lock : Bool) (n : Nat) (flash : Bool) :
    password_stores caps_lock n flash = built_password_text caps_lock n flash ++ [0] := by
  unfold password_stores built_password_text
  simp only [fill_placeholders_eq, copy_bytes_cursor, display_len_eq]
  have hne : decide ((if n > display_capacity caps_lock then display_capacity caps_lock - 1
      else n) ≠ n) = decide (n > display_capacity caps_lock) := by
    by_cases h : n > display_capacity caps_lock
    · have : display_capacity caps_lock - 1 ≠ n := by omega
      simp [h, this]
    · simp [h]
  rw [hne]
  cases flash <;> simp

theorem built_password_text_nonzero (caps_lock : Bool) (n : Nat) (flash : Bool) :
    ∀ b ∈ built_password_text caps_lock n flash, b ≠ 0 := by
  intro b hb
  unfold built_password_text at hb
  rw [List.mem_append] at hb
  rcases hb with hb | hb
  · exact placeholder_row_nonzero _ _ b hb
  · cases flash
    · simp at hb
    · simp [cursor] at hb
      omega

theorem password_text_eq (caps_lock : Bool) (n : Nat) (flash : Bool) :
    password_text caps_lock n flash = built_password_text caps_lock n flash := by
  unfold password_text
  rw [password_stores_eq]
  exact c_str_terminated _ (built_password_text_nonzero caps_lock n flash)

/-- C6, as stated, fails: with 21 characters typed and caps lock off the text
has 19 placeholder glyphs, not min(21, 20) = 20. -/
theorem password_text_count_fails :
    long_password_state.args.pimode = true ∧
    long_password_state.auth_state = auth_state.AUTH_STATE_IDLE ∧
    (compute_text long_password_state).1 ≠
      some (Text.bytes (claimed_password_text long_password_state.xkb.caps_lock
        long_password_state.password_len long_password_state.flash)) ∧
    (compute_text long_password_state).1 =
      some (Text.bytes (placeholder_row 19 true)) := by
  decide

/-- C6, amended: in message-box mode with the authentication state neither
Validating nor Invalid, whenever the stores fit the `password` array, the text
is `n` bullet glyphs for a length `n` up to the capacity `C` (20, or 18 with
caps lock), and `C - 1` glyphs of which the first is the ellipsis for `n > C`;
one cursor glyph follows when flash is true and none when it is false. -/
theorem password_text_glyphs (state : swaylock_state)
    (hbox : state.args.pimode = true)
    (hv : state.auth_state ≠ auth_state.AUTH_STATE_VALIDATING)
    (hi : state.auth_state ≠ auth_state.AUTH_STATE_INVALID)
    (_hfit : (password_stores state.xkb.caps_lock state.password_len state.flash).length
      ≤ PASSWORD_SIZE) :
    (compute_text state).1 =
      some (Text.bytes (built_password_text state.xkb.caps_lock state.password_len
        state.flash)) := by
  unfold compute_text
  rw [if_pos hbox, ← password_text_eq]
  cases h : state.auth_state
  · rfl
  · exact absurd h hv
  · exact absurd h hi

theorem password_text_glyphs_witness :
    short_password_state.args.pimode = true ∧
    (compute_text short_password_state).1 =
      some (Text.bytes (built_password_text short_password_state.xkb.caps_lock
        short_password_state.password_len short_password_state.flash)) :=
  ⟨rfl, password_text_glyphs short_password_state rfl (by decide) (by decide) (by decide)⟩

/-- C10: the stores into `password`, terminator included, number
`3 * len + 1`, plus one with the cursor; they exceed the 61 bytes of the array
exactly for 20 typed characters with caps lock off and flash on, where 62
bytes are stored and the terminator lands on index 61. -/
theorem password_stores_overflow_iff (caps_lock : Bool) (n : Nat) (flash : Bool) :
    (password_stores false 20 true).length = 62 ∧
    (password_stores false 20 true).get? 61 = some 0 ∧
    PASSWORD_SIZE = 61 ∧
    (password_stores caps_lock n flash).length =
      INV_CHAR_LEN * display_len caps_lock n + (if flash = true then CURSOR_LEN else 0) + 1 ∧
    (PASSWORD_SIZE < (password_stores caps_lock n flash).length ↔
      (caps_lock = false ∧ n = 20 ∧ flash = true)) := by
  refine ⟨by decide, by decide, by decide, ?_, ?_⟩
  · rw [password_stores_eq, display_len_eq]
    unfold built_password_text
    cases flash <;> simp [placeholder_row_length, cursor, INV_CHAR_LEN, CURSOR_LEN]
  have hlen : (password_stores caps_lock n flash).length =
      3 * display_len caps_lock n + (if flash = true then 1 else 0) + 1 := by
    rw [password_stores_eq, display_len_eq]
    unfold built_password_text
    cases flash <;> simp [placeholder_row_length, cursor]
  have hsize : PASSWORD_SIZE = 61 := by decide
  rw [hlen, hsize]
  cases caps_lock <;> cases flash
  · simp [display_len, PASSWORD_LEN]
    split_ifs <;> omega
  · simp only [display_len, PASSWORD_LEN, Bool.false_eq_true, if_false, if_true, true_and,
      and_true]
    split_ifs <;> omega
  · simp [display_len, PASSWORD_LEN]
    split_ifs <;> omega
  · simp [display_len, PASSWORD_LEN]
    split_ifs <;> omega

/-! ## C7: the keyboard layout text -/

/-- The layout loop stops by itself within `num_layout` iterations: at the index
it returns, the loop condition is false. -/
theorem advance_layout_exit (active : Nat → Int) (num_layout : Nat) :
    ∀ fuel curr, num_layout - curr ≤ fuel →
      ¬ (advance_layout active num_layout fuel curr < num_layout ∧
          active (advance_layout active num_layout fuel curr) ≠ 1) := by
  intro fuel
  induction fuel with
  | zero =>
    intro curr hfuel
    simp only [advance_layout]
    omega
  | succ k ih =>
    intro curr hfuel
    simp only [advance_layout]
    split_ifs with hc
    · exact ih (curr + 1) (by omega)
    · exact hc

theorem first_active_layout_exit (active : Nat → Int) (num_layout : Nat) :
    ¬ (first_active_layout active num_layout < num_layout ∧
        active (first_active_layout active num_layout) ≠ 1) :=
  advance_layout_exit active num_layout num_layout 0 (by omega)

theorem advance_layout_finds (active : Nat → Int) (num_layout i : Nat)
    (hi : i < num_layout) (hact : active i = 1) :
    ∀ fuel curr, curr ≤ i → i - curr < fuel →
      (∀ j, curr ≤ j → j < i → active j ≠ 1) →
      advance_layout active num_layout fuel curr = i := by
  intro fuel
  induction fuel with
  | zero =>
    intro curr _ hfuel
    omega
  | succ k ih =>
    intro curr hle hfuel hbefore
    simp only [advance_layout]
    by_cases hci : curr = i
    · subst hci
      rw [if_neg (fun h => h.2 hact)]
    · have hlt : curr < i := by omega
      rw [if_pos ⟨by omega, hbefore curr (le_refl curr) hlt⟩]
      exact ih (curr + 1) (by omega) (by omega)
        (fun j hj hji => hbefore j (by omega) hji)

/-- The loop stops at the first active layout. -/
theorem first_active_layout_finds (active : Nat → Int) (num_layout i : Nat)
    (hi : i < num_layout) (hact : active i = 1) (hbefore : ∀ j, j < i → active j ≠ 1) :
    first_active_layout active num_layout = i :=
  advance_layout_finds active num_layout i hi hact num_layout 0 (Nat.zero_le i)
    (by omega) (fun j _ hji => hbefore j hji)

/-- C7, as stated, fails: right after the password buffer was cleared, with the
ring visible, layout display requested and the active layout "us" at hand, the
layout block by itself would yield "us", yet `render_frame` leaves
`layout_text` unset. -/
theorem layout_text_independent_fails :
    cleared_state.args.pimode = false ∧ draw_indicator cleared_state = true ∧
    cleared_state.xkb.keymap = some { layout_names := [some "us"] } ∧
    cleared_state.xkb.layout_active 0 = 1 ∧
    cleared_state.args.hide_keyboard_layout = false ∧
    cleared_state.args.show_keyboard_layout = true ∧
    compute_layout_text cleared_state = some "us" ∧
    (compute_text cleared_state).2 = none := by
  decide

/-- C7, amended: in ring mode with the indicator visible, `layout_text` is
absent when the input state is Clear or the authentication state is Validating
or Invalid; otherwise, when a keymap is present whose first active layout has
a name, hiding is off and layout display is requested or there is more than
one layout, `layout_text` is that name; and it is absent only in those three
states, or when the keymap is missing, hiding is on, display is neither
requested nor implied by several layouts, or no first active layout with a
name exists. -/
theorem layout_text_rule (state : swaylock_state)
    (hring : state.args.pimode = false) (hvisible : draw_indicator state = true) :
    ((state.input_state = input_state.INPUT_STATE_CLEAR ∨
        state.auth_state = auth_state.AUTH_STATE_VALIDATING ∨
        state.auth_state = auth_state.AUTH_STATE_INVALID) →
      (compute_text state).2 = none) ∧
    (state.input_state ≠ input_state.INPUT_STATE_CLEAR →
      state.auth_state = auth_state.AUTH_STATE_IDLE →
      ∀ (keymap : xkb_keymap) (i : Nat) (name : String),
        state.xkb.keymap = some keymap →
        i < keymap.layout_names.length →
        state.xkb.layout_active i = 1 →
        (∀ j, j < i → state.xkb.layout_active j ≠ 1) →
        keymap.layout_names.get? i = some (some name) →
        state.args.hide_keyboard_layout = false →
        (state.args.show_keyboard_layout = true ∨ 1 < keymap.layout_names.length) →
        (compute_text state).2 = some name) ∧
    ((compute_text state).2 = none →
      state.input_state = input_state.INPUT_STATE_CLEAR ∨
      state.auth_state = auth_state.AUTH_STATE_VALIDATING ∨
      state.auth_state = auth_state.AUTH_STATE_INVALID ∨
      state.xkb.keymap = none ∨
      state.args.hide_keyboard_layout = true ∨
      (state.args.show_keyboard_layout = false ∧
        ∀ keymap, state.xkb.keymap = some keymap → keymap.layout_names.length ≤ 1) ∨
      ¬ ∃ (keymap : xkb_keymap) (i : Nat) (name : String),
        state.xkb.keymap = some keymap ∧ i < keymap.layout_names.length ∧
        state.xkb.layout_active i = 1 ∧
        (∀ j, j < i → state.xkb.layout_active j ≠ 1) ∧
        keymap.layout_names.get? i = some (some name)) := by
  have hpresent : state.input_state ≠ input_state.INPUT_STATE_CLEAR →
      state.auth_state = auth_state.AUTH_STATE_IDLE →
      ∀ (keymap : xkb_keymap) (i : Nat) (name : String),
        state.xkb.keymap = some keymap →
        i < keymap.layout_names.length →
        state.xkb.layout_active i = 1 →
        (∀ j, j < i → state.xkb.layout_active j ≠ 1) →
        keymap.layout_names.get? i = some (some name) →
        state.args.hide_keyboard_layout = false →
        (state.args.show_keyboard_layout = true ∨ 1 < keymap.layout_names.length) →
        (compute_text state).2 = some name := by
    intro hclear hauth keymap i name hkm hi hact hbefore hname hhide hshow
    have hfirst := first_active_layout_finds state.xkb.layout_active
      keymap.layout_names.length i hi hact hbefore
    have hcond : (!state.args.hide_keyboard_layout &&
        (state.args.show_keyboard_layout || decide (keymap.layout_names.length > 1)))
        = true := by
      rcases hshow with h | h
      · simp [hhide, h]
      · simp [hhide, h]
    have hlayout : compute_layout_text state = some name := by
      unfold compute_layout_text
      rw [hkm]
      simp only [hcond, if_true, hfirst, xkb_keymap_layout_get_name, hname]
      rfl
    unfold compute_text
    simp [hring, hvisible, hclear, hauth, hlayout]
  refine ⟨?_, hpresent, ?_⟩
  · intro h
    unfold compute_text
    rw [hring, hvisible]
    rcases h with h | h | h
    · simp [h]
    · by_cases hc : state.input_state = input_state.INPUT_STATE_CLEAR <;> simp [h, hc]
    · by_cases hc : state.input_state = input_state.INPUT_STATE_CLEAR <;> simp [h, hc]
  · intro hnone
    by_contra hcon
    push_neg at hcon
    obtain ⟨hclear, hv, hi, hkm, hhide, hshow, keymap, i, name, hk, hlt, hact, hbefore,
      hname⟩ := hcon
    have hauth : state.auth_state = auth_state.AUTH_STATE_IDLE := by
      cases h : state.auth_state
      · rfl
      · exact absurd h hv
      · exact absurd h hi
    have hhide' : state.args.hide_keyboard_layout = false := by
      cases h : state.args.hide_keyboard_layout
      · rfl
      · exact absurd h hhide
    have hshow' : state.args.show_keyboard_layout = true ∨ 1 < keymap.layout_names.length := by
      cases h : state.args.show_keyboard_layout
      · obtain ⟨km, hkm', hlen⟩ := hshow h
        rw [hk] at hkm'
        cases hkm'
        exact Or.inr (by omega)
      · exact Or.inl rfl
    have := hpresent hclear hauth keymap i name hk hlt hact hbefore hname hhide' hshow'
    rw [hnone] at this
    exact absurd this (by simp)

theorem layout_text_rule_witness :
    sample_state.args.pimode = false ∧ draw_indicator sample_state = true ∧
    (compute_text sample_state).2 = some "us" :=
  ⟨rfl, by decide,
    (layout_text_rule sample_state rfl (by decide)).2.1 (by decide) rfl
      { layout_names := [some "us"] } 0 "us" rfl (by decide) (by decide)
      (fun j hj => absurd hj (Nat.not_lt_zero j)) rfl rfl (Or.inl rfl)⟩

end Swaylock
